import Mathlib

/-!
# Verification of `ParticleDrawer` (Stippling repository)

Shallow embedding of the point-sprite particle renderer declared in
`src/include/ParticleDrawer.h`.  The repository ships only the header: the
class declaration, the field types, and the inline accessor bodies
(`getVAO`, `getPosVBO`, `getParticleSize`) are source code; the bodies of
all other member functions live in a missing `ParticleDrawer.cpp` and are
modelled from the specification, as marked on each definition.

The component performs no floating-point arithmetic: `float` values
(particle size, colour channels, vector components, matrix entries) are
only stored and passed through verbatim, so they are modelled by an
abstract carrier with decidable equality rather than by IEEE floats.
-/

/-- Carrier for C++ `float` values.  The component only stores and
retrieves these values (no arithmetic is ever performed on them), so any
carrier with decidable equality is a faithful model. -/
structure GLfloat where
  bits : Nat
deriving DecidableEq

/-- A `glm::vec3`: three `float` components. -/
structure Vec3 where
  x : GLfloat
  y : GLfloat
  z : GLfloat
deriving DecidableEq

/-- A `glm::mat4` passed by value into the draw calls.  The renderer never
inspects the entries itself (matrix products are computed by the external
math library), so the entries stay abstract. -/
structure Mat4 where
  entries : List GLfloat
deriving DecidableEq

/-- Errors the specification assigns to the component: the capacity
violation on `setPositions` (spec section 7(a)) and rejection of a nested
acquisition of the writable position handle (spec section 4.1). -/
inductive DrawerError where
  | capacityExceeded
  | bufferAlreadyBound
deriving DecidableEq

/-- Which of the two shader configurations a draw call binds
(`m_particleShader` vs `m_CMYKParticleShader` in the header). -/
inductive ShaderKind where
  | standard
  | cmyk
deriving DecidableEq

/-- State of one `ParticleDrawer` instance, following the private fields of
`ParticleDrawer.h` lines 115-184.  `GLuint` handles are modelled as `Nat`.
The twelve resolved uniform-location fields of the header
(`m_pointSizeHndl` ... `m_CMYKscreenWidthHndl`) are grouped into the single
list `m_uniformHndls`: they are resolved once at initialisation and never
written afterwards, and no claim distinguishes them.  The header stores no
member for the configured colour or screen width; the spec's data model
(section 3, "Render configuration") includes both, so the modelled state
carries them as `m_colour` and `m_screenWidth`.  `posBuffer` is the
GPU-resident position storage and `posBufferBound` records whether the
writable pointer obtained from `bindPosBufferPtr` is currently live. -/
structure ParticleDrawer where
  m_particleSize : GLfloat
  m_VAO : Nat
  m_posVBO : Nat
  m_numParticles : Nat
  m_particleShader : Nat
  m_CMYKParticleShader : Nat
  m_uniformHndls : List Nat
  m_colour : GLfloat × GLfloat × GLfloat
  m_screenWidth : Int
  posBuffer : List Vec3
  posBufferBound : Bool
deriving DecidableEq

/-- Spec section 3: "logically 'current particle count' = capacity (no
separate live/dead count is tracked)".  The reported capacity of the
position buffer is the tracked particle count `m_numParticles`. -/
def capacity (s : ParticleDrawer) : Nat :=
  s.m_numParticles

/-- Modelled from the spec: the body of `resizeParticleBuffer` is in the
missing `ParticleDrawer.cpp`.  Spec section 4.1: "reallocate the position
storage to hold exactly `n` vectors; invalidates prior contents; updates
the tracked particle count to `n`".  The header fixes the types: the
parameter is a C++ `int` (line 44) while `m_numParticles` is a `GLuint`
(line 131), so storing the count applies the C++ signed-to-unsigned
conversion, i.e. reduction modulo 2^32.  The reallocated storage is
modelled as `n.toNat` default vectors: freshly allocated GPU storage whose
contents are independent of the previous contents. -/
def resizeParticleBuffer (s : ParticleDrawer) (n : Int) : ParticleDrawer :=
  { s with
    m_numParticles := (n % 2 ^ 32).toNat
    posBuffer := List.replicate n.toNat ⟨⟨0⟩, ⟨0⟩, ⟨0⟩⟩ }

/-- Modelled from the spec: the body of `setPositions` is in the missing
`ParticleDrawer.cpp`.  Spec section 4.1 with the choice fixed by sections
7(a) and 8: copy `_posData` into the buffer; if the data is longer than the
current capacity, "fail fast with a descriptive error" (`CapacityExceeded`)
"and leave prior buffer contents unchanged" — the check precedes any write,
so a failing call returns the error and produces no new state.  A
successful call overwrites the first `|data|` slots and leaves the rest of
the storage as it was. -/
def setPositions (s : ParticleDrawer) (posData : List Vec3) :
    Except DrawerError ParticleDrawer :=
  if capacity s < posData.length then
    .error .capacityExceeded
  else
    .ok { s with posBuffer := posData ++ s.posBuffer.drop posData.length }

/-- Modelled from the spec: the body of `setScreenWidth` is in the missing
`ParticleDrawer.cpp`.  Spec section 4.1: "pure configuration setters; no
side effects beyond storing the value". -/
def setScreenWidth (s : ParticleDrawer) (w : Int) : ParticleDrawer :=
  { s with m_screenWidth := w }

/-- Modelled from the spec: the body of `setParticleSize` is in the missing
`ParticleDrawer.cpp`.  Spec section 4.1: "pure configuration setters; no
side effects beyond storing the value". -/
def setParticleSize (s : ParticleDrawer) (sz : GLfloat) : ParticleDrawer :=
  { s with m_particleSize := sz }

/-- Modelled from the spec: the body of `setColour` is in the missing
`ParticleDrawer.cpp`.  Spec section 4.1: "pure configuration setters; no
side effects beyond storing the value". -/
def setColour (s : ParticleDrawer) (r g b : GLfloat) : ParticleDrawer :=
  { s with m_colour := (r, g, b) }

/-- The observable effect of one draw dispatch: which shader configuration
was bound, which vertex-array handle was bound, the primitive count passed
to the point draw, the configuration uniforms uploaded, and the transform
matrices handed to the shader.  The derived products (model-view,
model-view-projection) are computed by the external math library from the
recorded matrices, so the record keeps the inputs. -/
structure DrawCall where
  shader : ShaderKind
  vao : Nat
  count : Int
  pointSize : GLfloat
  screenWidth : Int
  colour : Option (GLfloat × GLfloat × GLfloat)
  modelM : Mat4
  viewM : Mat4
  projM : Mat4
deriving DecidableEq

/-- Modelled from the spec: the body of `draw` is in the missing
`ParticleDrawer.cpp`.  Spec section 4.1: "binds the standard shader,
uploads the four configuration uniforms plus the three transform-derived
uniforms, binds the internal buffer, issues a point-primitive draw of the
tracked particle count".  The solid colour is a standard-shader uniform
(spec section 3: "used by the standard shader only"). -/
def draw (s : ParticleDrawer) (M V P : Mat4) : DrawCall :=
  { shader := .standard
    vao := s.m_VAO
    count := (s.m_numParticles : Int)
    pointSize := s.m_particleSize
    screenWidth := s.m_screenWidth
    colour := some s.m_colour
    modelM := M
    viewM := V
    projM := P }

/-- Modelled from the spec: the body of `drawFromVAO` is in the missing
`ParticleDrawer.cpp`.  Spec section 4.1: "identical to `draw` except they
bind a caller-supplied buffer handle and caller-supplied count instead of
the internally owned ones". -/
def drawFromVAO (s : ParticleDrawer) (vao : Nat) (n : Int) (M V P : Mat4) :
    DrawCall :=
  { shader := .standard
    vao := vao
    count := n
    pointSize := s.m_particleSize
    screenWidth := s.m_screenWidth
    colour := some s.m_colour
    modelM := M
    viewM := V
    projM := P }

/-- Modelled from the spec: the body of `drawCMYKFromVAO` is in the missing
`ParticleDrawer.cpp`.  Spec section 4.1: like `drawFromVAO` but "the CMYK
variant binds the alternate shader configuration"; the solid-colour uniform
belongs to the standard shader only (spec section 3). -/
def drawCMYKFromVAO (s : ParticleDrawer) (vao : Nat) (n : Int) (M V P : Mat4) :
    DrawCall :=
  { shader := .cmyk
    vao := vao
    count := n
    pointSize := s.m_particleSize
    screenWidth := s.m_screenWidth
    colour := none
    modelM := M
    viewM := V
    projM := P }

/-- Modelled from the spec: the body of `bindPosBufferPtr` is in the
missing `ParticleDrawer.cpp`.  Spec sections 4.1 and 8: scoped exposure of
a direct write mapping into the position buffer; "nested acquisition is
disallowed" and a second acquisition without release "fails or is
rejected".  A rejected call returns only the error, leaving the component
state untouched; a successful call marks the handle live and exposes the
buffer contents. -/
def bindPosBufferPtr (s : ParticleDrawer) :
    Except DrawerError (ParticleDrawer × List Vec3) :=
  if s.posBufferBound then
    .error .bufferAlreadyBound
  else
    .ok ({ s with posBufferBound := true }, s.posBuffer)

/-- Modelled from the spec: the body of `unBindPosBufferPtr` is in the
missing `ParticleDrawer.cpp`.  Spec section 8: "releasing without a prior
acquire is a no-op or fails, but must never corrupt state" — modelled as
the no-op choice: the live flag is cleared and nothing else changes. -/
def unBindPosBufferPtr (s : ParticleDrawer) : ParticleDrawer :=
  { s with posBufferBound := false }

/-- Inline accessor from the header (line 93): `return m_VAO;`.  The method
is non-const in the source, so it is embedded as returning the handle
together with the (unmodified) state. -/
def getVAO (s : ParticleDrawer) : Nat × ParticleDrawer :=
  (s.m_VAO, s)

/-- Inline accessor from the header (line 98): `return m_posVBO;`. -/
def getPosVBO (s : ParticleDrawer) : Nat × ParticleDrawer :=
  (s.m_posVBO, s)

/-- Inline accessor from the header (line 113): `return m_particleSize;`. -/
def getParticleSize (s : ParticleDrawer) : GLfloat × ParticleDrawer :=
  (s.m_particleSize, s)

/-- A concrete drawer state used to instantiate hypotheses in witnesses. -/
def sampleDrawer : ParticleDrawer :=
  { m_particleSize := ⟨20⟩
    m_VAO := 1
    m_posVBO := 2
    m_numParticles := 3
    m_particleShader := 7
    m_CMYKParticleShader := 8
    m_uniformHndls := [0, 1, 2, 3, 4, 5, 6, 7, 8, 9, 10, 11]
    m_colour := (⟨10⟩, ⟨11⟩, ⟨12⟩)
    m_screenWidth := 1024
    posBuffer := [⟨⟨4⟩, ⟨4⟩, ⟨4⟩⟩, ⟨⟨5⟩, ⟨5⟩, ⟨5⟩⟩, ⟨⟨6⟩, ⟨6⟩, ⟨6⟩⟩]
    posBufferBound := false }

/-- Like `sampleDrawer` but with the writable position handle currently
acquired. -/
def sampleBoundDrawer : ParticleDrawer :=
  { sampleDrawer with posBufferBound := true }

/-- Running `setPositions` as a state transformer.  The modelled body checks
the capacity before writing anything, so a failing call reports the error
and leaves the component state — in particular the buffer contents — as it
was. -/
def runSetPositions (s : ParticleDrawer) (posData : List Vec3) :
    ParticleDrawer × Option DrawerError :=
  match setPositions s posData with
  | .ok s' => (s', none)
  | .error e => (s, some e)

/-- C1: for every integer n >= 0 (within the range of the C++ `int`
argument of `resizeParticleBuffer`), after `resizeParticleBuffer(n)` the
reported capacity — the tracked particle count — equals n. -/
theorem resizeParticleBuffer_capacity (s : ParticleDrawer) (n : Int)
    (h0 : 0 ≤ n) (h1 : n < 2 ^ 31) :
    (capacity (resizeParticleBuffer s n) : Int) = n := by
  have hpow : (2 : Int) ^ 32 = 4294967296 := by norm_num
  simp only [capacity, resizeParticleBuffer, hpow]
  omega

/-- Witness for C1 at n = 5. -/
theorem resizeParticleBuffer_capacity_witness :
    0 ≤ (5 : Int) ∧ (5 : Int) < 2 ^ 31 ∧
      (capacity (resizeParticleBuffer sampleDrawer 5) : Int) = 5 :=
  ⟨by decide, by decide,
    resizeParticleBuffer_capacity sampleDrawer 5 (by decide) (by decide)⟩

/-- C2: whenever the supplied position data is longer than the current
capacity, `setPositions` fails with `CapacityExceeded` and the component
state — in particular the buffer contents before the call — is unchanged
after it. -/
theorem setPositions_capacityExceeded (s : ParticleDrawer)
    (posData : List Vec3) (h : capacity s < posData.length) :
    setPositions s posData = .error .capacityExceeded ∧
      runSetPositions s posData = (s, some .capacityExceeded) := by
  have he : setPositions s posData = .error .capacityExceeded := by
    simp [setPositions, h]
  exact ⟨he, by simp [runSetPositions, he]⟩

/-- Witness for C2: four vectors against capacity 3. -/
theorem setPositions_capacityExceeded_witness :
    capacity sampleDrawer <
        ([⟨⟨1⟩, ⟨1⟩, ⟨1⟩⟩, ⟨⟨2⟩, ⟨2⟩, ⟨2⟩⟩, ⟨⟨3⟩, ⟨3⟩, ⟨3⟩⟩,
          ⟨⟨4⟩, ⟨4⟩, ⟨4⟩⟩] : List Vec3).length ∧
      (setPositions sampleDrawer
          [⟨⟨1⟩, ⟨1⟩, ⟨1⟩⟩, ⟨⟨2⟩, ⟨2⟩, ⟨2⟩⟩, ⟨⟨3⟩, ⟨3⟩, ⟨3⟩⟩, ⟨⟨4⟩, ⟨4⟩, ⟨4⟩⟩]
          = .error .capacityExceeded ∧
        runSetPositions sampleDrawer
          [⟨⟨1⟩, ⟨1⟩, ⟨1⟩⟩, ⟨⟨2⟩, ⟨2⟩, ⟨2⟩⟩, ⟨⟨3⟩, ⟨3⟩, ⟨3⟩⟩, ⟨⟨4⟩, ⟨4⟩, ⟨4⟩⟩]
          = (sampleDrawer, some .capacityExceeded)) :=
  ⟨by decide, setPositions_capacityExceeded sampleDrawer _ (by decide)⟩

/-- C3: for position data no longer than the current capacity,
`setPositions` succeeds and reading the buffer back through the write
handle obtained from `bindPosBufferPtr` yields exactly the stored data
(store/read round-trip).  The handle must not already be live, per the
acquisition contract of spec section 4.1. -/
theorem setPositions_roundTrip (s : ParticleDrawer) (posData : List Vec3)
    (hlen : posData.length ≤ capacity s) (hb : s.posBufferBound = false) :
    ∃ s' s'' buf, setPositions s posData = .ok s' ∧
      bindPosBufferPtr s' = .ok (s'', buf) ∧
      buf.take posData.length = posData := by
  refine ⟨{ s with posBuffer := posData ++ s.posBuffer.drop posData.length },
    { s with posBuffer := posData ++ s.posBuffer.drop posData.length,
             posBufferBound := true },
    posData ++ s.posBuffer.drop posData.length, ?_, ?_, ?_⟩
  · simp [setPositions, Nat.not_lt.mpr hlen]
  · simp [bindPosBufferPtr, hb]
  · exact List.take_left _ _

/-- Witness for C3 with one vector against capacity 3. -/
theorem setPositions_roundTrip_witness :
    ([⟨⟨9⟩, ⟨9⟩, ⟨9⟩⟩] : List Vec3).length ≤ capacity sampleDrawer ∧
      sampleDrawer.posBufferBound = false ∧
      ∃ s' s'' buf, setPositions sampleDrawer [⟨⟨9⟩, ⟨9⟩, ⟨9⟩⟩] = .ok s' ∧
        bindPosBufferPtr s' = .ok (s'', buf) ∧
        buf.take ([⟨⟨9⟩, ⟨9⟩, ⟨9⟩⟩] : List Vec3).length = [⟨⟨9⟩, ⟨9⟩, ⟨9⟩⟩] :=
  ⟨by decide, by decide,
    setPositions_roundTrip sampleDrawer _ (by decide) (by decide)⟩

/-- C4: `drawCMYKFromVAO` always dispatches with the caller-supplied count,
never with the internally tracked particle count (its output does not
depend on `m_numParticles`), and binds the CMYK shader configuration where
`draw` binds the standard one. -/
theorem drawCMYKFromVAO_external_count (s : ParticleDrawer) (vao : Nat)
    (n : Int) (M V P : Mat4) (k : Nat) :
    (drawCMYKFromVAO s vao n M V P).count = n ∧
      (drawCMYKFromVAO s vao n M V P).shader = ShaderKind.cmyk ∧
      (draw s M V P).shader = ShaderKind.standard ∧
      drawCMYKFromVAO { s with m_numParticles := k } vao n M V P =
        drawCMYKFromVAO s vao n M V P :=
  ⟨rfl, rfl, rfl, rfl⟩

/-- C5: in every state, the count `draw` passes when rendering the
internally owned buffer equals the position-buffer capacity, while the
external-buffer draws `drawFromVAO` and `drawCMYKFromVAO` never consult
the internal count: their output is invariant under any change of
`m_numParticles`. -/
theorem draw_count_capacity_invariant (s : ParticleDrawer) (M V P : Mat4)
    (vao : Nat) (n : Int) (k : Nat) :
    (draw s M V P).count = (capacity s : Int) ∧
      drawFromVAO { s with m_numParticles := k } vao n M V P =
        drawFromVAO s vao n M V P ∧
      drawCMYKFromVAO { s with m_numParticles := k } vao n M V P =
        drawCMYKFromVAO s vao n M V P :=
  ⟨rfl, rfl, rfl⟩

/-- C6: acquiring the writable position handle while it is already live is
rejected with an error (and, since the rejected call produces no new state,
the component state is untouched); releasing it when it is not live is a
no-op that leaves every field unchanged. -/
theorem bindPosBufferPtr_discipline (s t : ParticleDrawer)
    (hs : s.posBufferBound = true) (ht : t.posBufferBound = false) :
    bindPosBufferPtr s = .error .bufferAlreadyBound ∧
      unBindPosBufferPtr t = t := by
  constructor
  · simp [bindPosBufferPtr, hs]
  · cases t
    simp_all [unBindPosBufferPtr]

/-- Witness for C6 on concrete bound and unbound states. -/
theorem bindPosBufferPtr_discipline_witness :
    sampleBoundDrawer.posBufferBound = true ∧
      sampleDrawer.posBufferBound = false ∧
      (bindPosBufferPtr sampleBoundDrawer = .error .bufferAlreadyBound ∧
        unBindPosBufferPtr sampleDrawer = sampleDrawer) :=
  ⟨by decide, by decide,
    bindPosBufferPtr_discipline sampleBoundDrawer sampleDrawer
      (by decide) (by decide)⟩

/-- C7: `resizeParticleBuffer` discards the prior buffer contents: the
resulting buffer contents are the same for any two pre-call states, i.e.
independent of what the buffer held before the call. -/
theorem resizeParticleBuffer_discards (s₁ s₂ : ParticleDrawer) (n : Int) :
    (resizeParticleBuffer s₁ n).posBuffer =
      (resizeParticleBuffer s₂ n).posBuffer :=
  rfl

/-- C8: each configuration setter stores exactly its own value and changes
no other field of the component (buffer contents, capacity, shader
handles, uniform handles and the other configuration values are
unchanged), and the stored value is picked up by the next `draw`. -/
theorem setters_frame (s : ParticleDrawer) (w : Int) (sz r g b : GLfloat)
    (M V P : Mat4) :
    ((setScreenWidth s w).m_screenWidth = w ∧
      (setScreenWidth s w).m_particleSize = s.m_particleSize ∧
      (setScreenWidth s w).m_VAO = s.m_VAO ∧
      (setScreenWidth s w).m_posVBO = s.m_posVBO ∧
      (setScreenWidth s w).m_numParticles = s.m_numParticles ∧
      (setScreenWidth s w).m_particleShader = s.m_particleShader ∧
      (setScreenWidth s w).m_CMYKParticleShader = s.m_CMYKParticleShader ∧
      (setScreenWidth s w).m_uniformHndls = s.m_uniformHndls ∧
      (setScreenWidth s w).m_colour = s.m_colour ∧
      (setScreenWidth s w).posBuffer = s.posBuffer ∧
      (setScreenWidth s w).posBufferBound = s.posBufferBound) ∧
    ((setParticleSize s sz).m_particleSize = sz ∧
      (setParticleSize s sz).m_screenWidth = s.m_screenWidth ∧
      (setParticleSize s sz).m_VAO = s.m_VAO ∧
      (setParticleSize s sz).m_posVBO = s.m_posVBO ∧
      (setParticleSize s sz).m_numParticles = s.m_numParticles ∧
      (setParticleSize s sz).m_particleShader = s.m_particleShader ∧
      (setParticleSize s sz).m_CMYKParticleShader = s.m_CMYKParticleShader ∧
      (setParticleSize s sz).m_uniformHndls = s.m_uniformHndls ∧
      (setParticleSize s sz).m_colour = s.m_colour ∧
      (setParticleSize s sz).posBuffer = s.posBuffer ∧
      (setParticleSize s sz).posBufferBound = s.posBufferBound) ∧
    ((setColour s r g b).m_colour = (r, g, b) ∧
      (setColour s r g b).m_particleSize = s.m_particleSize ∧
      (setColour s r g b).m_screenWidth = s.m_screenWidth ∧
      (setColour s r g b).m_VAO = s.m_VAO ∧
      (setColour s r g b).m_posVBO = s.m_posVBO ∧
      (setColour s r g b).m_numParticles = s.m_numParticles ∧
      (setColour s r g b).m_particleShader = s.m_particleShader ∧
      (setColour s r g b).m_CMYKParticleShader = s.m_CMYKParticleShader ∧
      (setColour s r g b).m_uniformHndls = s.m_uniformHndls ∧
      (setColour s r g b).posBuffer = s.posBuffer ∧
      (setColour s r g b).posBufferBound = s.posBufferBound) ∧
    (draw (setScreenWidth s w) M V P).screenWidth = w ∧
    (draw (setParticleSize s sz) M V P).pointSize = sz ∧
    (draw (setColour s r g b) M V P).colour = some (r, g, b) := by
  and_intros <;> rfl

/-- C9: after `setParticleSize(s)` the accessor `getParticleSize` returns
exactly s, and the accessors `getVAO`, `getPosVBO` and `getParticleSize`
return the component state unmodified (read-only). -/
theorem accessors_readOnly (s : ParticleDrawer) (sz : GLfloat) :
    (getParticleSize (setParticleSize s sz)).1 = sz ∧
      (getVAO s).2 = s ∧
      (getPosVBO s).2 = s ∧
      (getParticleSize s).2 = s :=
  ⟨rfl, rfl, rfl, rfl⟩

/-- C10: `resizeParticleBuffer` takes a signed `int` but stores the count
in the unsigned 32-bit `m_numParticles`; a negative argument is not
rejected (the call is total) and the stored count is the argument reduced
modulo 2^32, i.e. n + 2^32 — in particular non-zero, so the recommended
treat-as-zero behaviour for n <= 0 is not enforced by the interface. -/
theorem resizeParticleBuffer_negative_wraps (s : ParticleDrawer) (n : Int)
    (h0 : -(2 ^ 31) ≤ n) (h1 : n < 0) :
    ((resizeParticleBuffer s n).m_numParticles : Int) = n + 2 ^ 32 ∧
      (resizeParticleBuffer s n).m_numParticles ≠ 0 := by
  have hpow : (2 : Int) ^ 32 = 4294967296 := by norm_num
  refine ⟨?_, ?_⟩ <;> simp only [resizeParticleBuffer, hpow] <;> omega

/-- Witness for C10 at n = -1: the stored count is 4294967295. -/
theorem resizeParticleBuffer_negative_wraps_witness :
    -(2 ^ 31) ≤ (-1 : Int) ∧ (-1 : Int) < 0 ∧
      (((resizeParticleBuffer sampleDrawer (-1)).m_numParticles : Int) =
          -1 + 2 ^ 32 ∧
        (resizeParticleBuffer sampleDrawer (-1)).m_numParticles ≠ 0) :=
  ⟨by decide, by decide,
    resizeParticleBuffer_negative_wraps sampleDrawer (-1)
      (by decide) (by decide)⟩
